import Mathlib

/-!
Shallow embedding of `src/tempesta_fw/connection.c` (Tempesta FW generic
connection management).

The file models the connection downcalls (`tfw_connection_new`,
`tfw_connection_close`), the transport upcalls (`tfw_connection_new_upcall`,
`tfw_connection_put_skb_to_msg`, `tfw_connection_postpone_skb`) and the hook
registry (`tfw_connection_hooks_register`).

Modelling conventions:
* Machine state touched by an operation (the socket, the connection record,
  the hook table) is passed in and returned explicitly.
* External collaborators (classifier verdicts, the slab allocator, the
  protocol callbacks, `tfw_create_client`) are oracles: their outcomes are
  explicit parameters, and their invocations are recorded as `Event`s.
* Each operation returns `Option ...`; `none` models a crash, i.e. a
  `BUG_ON` firing or a NULL-pointer dereference.
* Segments (`struct sk_buff *`) are opaque and identified by a `Nat`;
  destructor function pointers are likewise identified by a `Nat`.
-/

namespace Tempesta

/-- Classifier verdict. Modelled from the spec: classifier.h is not under
src/; the classifier gate returns either allow (`TFW_PASS`) or block
(`TFW_BLOCK`). -/
inductive Verdict where
  | pass
  | block
deriving DecidableEq, Repr

/-- Modelled from the spec: `TFW_CONN_MAX_PROTOS` equals `TFW_GFSM_FSM_N`, a
compile-time hook-table size (gfsm.h is not under src/); we fix a concrete
value. -/
def TFW_CONN_MAX_PROTOS : Nat := 4

/-- Modelled from the spec: type tag bit layout (connection.h is not under
src/): the low bits hold the protocol index and a dedicated higher bit marks
the client-facing direction. -/
def Conn_Clnt : Nat := 0x100

/-- Modelled from the spec: dedicated bit marking the server-facing
direction of a connection type tag. -/
def Conn_Srv : Nat := 0x200

/-- Modelled from the spec: `TFW_CONN_TYPE2IDX` strips the direction bits
from a type tag, keeping the low protocol-index bits. -/
def TFW_CONN_TYPE2IDX (t : Nat) : Nat := t % 0x100

/-- The direction bits of a type tag (the part `TFW_CONN_TYPE2IDX` strips). -/
def connDirBits (t : Nat) : Nat := t &&& (Conn_Clnt ||| Conn_Srv)

/-- Linux errno: operation not permitted. -/
def EPERM : Int := 1

/-- Linux errno: out of memory. -/
def ENOMEM : Int := 12

/-- Linux errno: invalid argument. -/
def EINVAL : Int := 22

/-- Protocol tag header `SsProto`, the head of the connection record (the
layout contract lets the code cast between the two). -/
structure SsProto where
  type : Nat
deriving DecidableEq, Repr

/-- One in-flight L7 message `TfwMsg`: an ordered segment (skb) list. -/
structure TfwMsg where
  skb_list : List Nat
deriving DecidableEq, Repr

/-- The connection record `TfwConnection`. The intrusive `list` link is
owned by the peer; its membership is modelled by the `peer` weak reference
together with the `peer_del_conn` event emitted on unlink. -/
structure TfwConnection where
  proto : SsProto
  sock : Option Nat
  peer : Option Nat
  msg : Option TfwMsg
  msg_queue : List TfwMsg
  sk_destruct : Option Nat
deriving DecidableEq, Repr

/-- Contents of a socket's `sk_user_data` slot: empty (NULL), a bare
protocol pre-binding (`SsProto *`), or a live connection. -/
inductive UserData where
  | empty
  | proto (p : SsProto)
  | conn (c : TfwConnection)
deriving DecidableEq, Repr

/-- Reading the slot as an `SsProto *` (the head of `TfwConnection`, by the
layout contract) yields the stored type tag, when the slot is non-NULL. -/
def UserData.protoType : UserData → Option Nat
  | .empty => none
  | .proto p => some p.type
  | .conn c => some c.proto.type

/-- The transport endpoint `struct sock`, restricted to the fields this
module touches. -/
structure Sock where
  id : Nat
  sk_user_data : UserData
  sk_destruct : Option Nat
  remote_addr : Nat
  sock_dbg : Bool
deriving DecidableEq, Repr

/-- A per-protocol hook set `TfwConnHooks`. `conn_init` and `conn_destruct`
are effectful callbacks recorded as events; `conn_msg_alloc` either returns
a fresh message or fails, which we model by the stored outcome. -/
structure TfwConnHooks where
  hooksId : Nat
  conn_msg_alloc : Option TfwMsg
deriving DecidableEq, Repr

/-- The global `conn_hooks` table: `TFW_CONN_MAX_PROTOS` optional slots. -/
abbrev HookTable := List (Option TfwConnHooks)

/-- Observable invocations of external collaborators. -/
inductive Event where
  | conn_alloc
  | conn_init (hid : Nat)
  | conn_destruct (hid : Nat)
  | msg_alloc (hid : Nat)
  | peer_del_conn (peer : Option Nat)
  | conn_free
  | ss_close
  | create_client (addr : Nat)
deriving DecidableEq, Repr

/-- `tfw_connection_alloc`: a zero-initialized record from the slab cache
with the type set and both list heads initialized; `allocOk = false` models
`kmem_cache_alloc` returning NULL under pressure. -/
def tfw_connection_alloc (type : Nat) (allocOk : Bool) : Option TfwConnection :=
  if allocOk then
    some { proto := { type := type }, sock := none, peer := none,
           msg := none, msg_queue := [], sk_destruct := none }
  else
    none

/-- The source's pre-binding step: when `sk_user_data` is non-NULL it is
read as an `SsProto *` and its type is OR'd into the requested type. -/
def preBoundOr (ud : UserData) (type : Nat) : Nat :=
  match ud.protoType with
  | some t => type ||| t
  | none => type

/-- `tfw_connection_new`: the downcall creating a connection on a live
socket. Mirrors the source order: `BUG_ON` on a type without direction
bits; OR of the pre-bound tag read from `sk_user_data`; allocation (NULL on
failure, socket untouched); binding of `sk_user_data`; destructor capture
and replacement when a destructor is supplied; back-pointer `conn->sock`;
`SOCK_DBG` flag; `conn_init` hook call. `none` models a crash (the `BUG_ON`
or a NULL hook slot). -/
def tfw_connection_new (tbl : HookTable) (sk : Sock) (type : Nat)
    (destructor : Option Nat) (allocOk : Bool) :
    Option (Option TfwConnection × Sock × List Event) :=
  if type &&& (Conn_Clnt ||| Conn_Srv) = 0 then
    none
  else
    let type' := preBoundOr sk.sk_user_data type
    match tfw_connection_alloc type' allocOk with
    | none => some (none, sk, [])
    | some conn0 =>
      let conn := { conn0 with
        sock := some sk.id,
        sk_destruct := if destructor.isSome then sk.sk_destruct else none }
      let sk' := { sk with
        sk_user_data := UserData.conn conn,
        sk_destruct := if destructor.isSome then destructor else sk.sk_destruct,
        sock_dbg := true }
      match tbl.getD (TFW_CONN_TYPE2IDX type') none with
      | none => none
      | some _ =>
        some (some conn, sk',
              [Event.conn_alloc, Event.conn_init (TFW_CONN_TYPE2IDX type')])

/-- `tfw_connection_close`: the drop upcall. Reads `sk_user_data` as a
connection, consults the close classifier gate, and on allow runs
`conn_destruct`, unlinks from the peer, frees the connection and clears the
slot. The source performs no NULL check on `sk_user_data`: with an empty
slot the allow path dereferences NULL (`TFW_CONN_TYPE(c)`), modelled as
`none`. -/
def tfw_connection_close (tbl : HookTable) (closeVerdict : Verdict)
    (sk : Sock) : Option (Int × Sock × List Event) :=
  if closeVerdict = Verdict.block then
    some (-EPERM, sk, [])
  else
    match sk.sk_user_data with
    | UserData.conn c =>
      let hid := TFW_CONN_TYPE2IDX c.proto.type
      match tbl.getD hid none with
      | none => none
      | some _ =>
        some (0, { sk with sk_user_data := UserData.empty },
              [Event.conn_destruct hid, Event.peer_del_conn c.peer,
               Event.conn_free])
    | _ => none

/-- Identifier of the `tfw_client_put` destructor passed by the passive-open
upcall. -/
def tfw_client_put : Nat := 1

/-- `tfw_connection_new_upcall`: passive open. Classifies before any
allocation; creates a client-facing connection; on allocation failure
closes the socket and returns `-ENOMEM`; then calls `tfw_create_client`
with a zeroed address (the source memsets `addr` and leaves a TODO to
derive it from the socket); on registration failure closes the socket and
returns `-EINVAL`. -/
def tfw_connection_new_upcall (tbl : HookTable) (estabVerdict : Verdict)
    (allocOk : Bool) (createClientOk : Bool) (sk : Sock) :
    Option (Int × Sock × List Event) :=
  if estabVerdict = Verdict.block then
    some (-EPERM, sk, [])
  else
    match tfw_connection_new tbl sk Conn_Clnt (some tfw_client_put) allocOk with
    | none => none
    | some (none, sk', evs) => some (-ENOMEM, sk', evs ++ [Event.ss_close])
    | some (some _conn, sk', evs) =>
      let addr : Nat := 0
      if createClientOk then
        some (0, sk', evs ++ [Event.create_client addr])
      else
        some (-EINVAL, sk', evs ++ [Event.create_client addr, Event.ss_close])

/-- `ss_skb_queue_tail`: append a segment at the tail of a message's
segment list. -/
def ss_skb_queue_tail (m : TfwMsg) (skb : Nat) : TfwMsg :=
  { m with skb_list := m.skb_list ++ [skb] }

/-- `tfw_connection_put_skb_to_msg`: the FSM upcall storing a segment into
the in-flight message. The `SsProto *` argument is the connection recovered
by the layout contract, so we take the connection directly. With no message
in progress, `conn_msg_alloc` is called; its NULL result is stored back
(message stays empty) and `-ENOMEM` is returned. Otherwise the segment is
queued at the tail. -/
def tfw_connection_put_skb_to_msg (tbl : HookTable) (conn : TfwConnection)
    (skb : Nat) : Option (Int × TfwConnection × List Event) :=
  match conn.msg with
  | none =>
    let i := TFW_CONN_TYPE2IDX conn.proto.type
    match tbl.getD i none with
    | none => none
    | some hk =>
      match hk.conn_msg_alloc with
      | none => some (-ENOMEM, conn, [Event.msg_alloc i])
      | some m =>
        some (0, { conn with msg := some (ss_skb_queue_tail m skb) },
              [Event.msg_alloc i])
  | some m =>
    some (0, { conn with msg := some (ss_skb_queue_tail m skb) }, [])

/-- `tfw_connection_postpone_skb`: append a segment to the existing
in-flight message; a missing message is a NULL dereference (`none`). -/
def tfw_connection_postpone_skb (conn : TfwConnection) (skb : Nat) :
    Option (Int × TfwConnection × List Event) :=
  match conn.msg with
  | none => none
  | some m =>
    some (0, { conn with msg := some (ss_skb_queue_tail m skb) }, [])

/-- `tfw_connection_hooks_register`: installs a hook set at
`TFW_CONN_TYPE2IDX type`; `BUG_ON` (modelled as `none`) when the index is
out of range or the slot is already occupied. -/
def tfw_connection_hooks_register (hooks : TfwConnHooks) (type : Nat)
    (tbl : HookTable) : Option HookTable :=
  let hid := TFW_CONN_TYPE2IDX type
  if TFW_CONN_MAX_PROTOS ≤ hid ∨ (tbl.getD hid none).isSome then
    none
  else
    some (tbl.set hid (some hooks))

/-!
Concrete fixtures used by witnesses and counterexamples.
-/

/-- A hook set with a succeeding `conn_msg_alloc` returning an empty
message. -/
def hk0 : TfwConnHooks := { hooksId := 0, conn_msg_alloc := some { skb_list := [] } }

/-- A hook set whose `conn_msg_alloc` fails. -/
def hkFail : TfwConnHooks := { hooksId := 2, conn_msg_alloc := none }

/-- A hook table with protocol 0 registered. -/
def tbl0 : HookTable := [some hk0, none, none, none]

/-- A socket with an empty `sk_user_data` slot. -/
def sk0 : Sock :=
  { id := 5, sk_user_data := UserData.empty, sk_destruct := some 9,
    remote_addr := 7, sock_dbg := false }

/-- A live client-facing connection of protocol 0 on peer 3. -/
def c0 : TfwConnection :=
  { proto := { type := Conn_Clnt }, sock := some 5, peer := some 3,
    msg := none, msg_queue := [], sk_destruct := some 9 }

/-- A socket carrying the live connection `c0`. -/
def sk1 : Sock :=
  { id := 5, sk_user_data := UserData.conn c0, sk_destruct := some 1,
    remote_addr := 7, sock_dbg := true }

/-- C1: closing a socket that carries a live connection whose protocol hook
is registered: a blocked verdict yields `-EPERM` with the socket unchanged
and no collaborator invoked; an allow verdict yields success with exactly
one `conn_destruct`, the peer unlink, the free, and the cleared
`sk_user_data` slot. -/
theorem tfw_connection_close_correct (tbl : HookTable) (sk : Sock)
    (c : TfwConnection) (hk : TfwConnHooks) (v : Verdict)
    (hud : sk.sk_user_data = UserData.conn c)
    (hhk : tbl.getD (TFW_CONN_TYPE2IDX c.proto.type) none = some hk) :
    (v = Verdict.block →
      tfw_connection_close tbl v sk = some (-EPERM, sk, [])) ∧
    (v = Verdict.pass →
      tfw_connection_close tbl v sk =
        some (0, { sk with sk_user_data := UserData.empty },
              [Event.conn_destruct (TFW_CONN_TYPE2IDX c.proto.type),
               Event.peer_del_conn c.peer, Event.conn_free])) := by
  constructor
  · intro hv
    subst hv
    simp [tfw_connection_close]
  · intro hv
    subst hv
    rw [List.getD_eq_getElem?_getD] at hhk
    simp [tfw_connection_close, hud, hhk]

/-- C1 witness: the theorem applied to the concrete socket `sk1` carrying
`c0` with table `tbl0`, on the allow verdict. -/
theorem tfw_connection_close_correct_witness :
    (Verdict.pass = Verdict.block →
      tfw_connection_close tbl0 Verdict.pass sk1 = some (-EPERM, sk1, [])) ∧
    (Verdict.pass = Verdict.pass →
      tfw_connection_close tbl0 Verdict.pass sk1 =
        some (0, { sk1 with sk_user_data := UserData.empty },
              [Event.conn_destruct (TFW_CONN_TYPE2IDX c0.proto.type),
               Event.peer_del_conn c0.peer, Event.conn_free])) :=
  tfw_connection_close_correct tbl0 sk1 c0 hk0 Verdict.pass
    (by decide) (by decide)

/-- C2: closing a socket whose `sk_user_data` slot is empty is not a
successful no-op: the source dereferences the NULL connection on the allow
path (a crash, modelled `none`), and returns `-EPERM`, not success, on the
block path. -/
theorem close_on_empty_slot_is_not_noop :
    sk0.sk_user_data = UserData.empty ∧
    tfw_connection_close tbl0 Verdict.pass sk0 = none ∧
    tfw_connection_close tbl0 Verdict.block sk0 = some (-EPERM, sk0, []) := by
  refine ⟨rfl, ?_, ?_⟩ <;> decide

/-- C5: a blocked establishment verdict makes the passive-open upcall
return `-EPERM` with the socket (user-data slot and destructor included)
unchanged and no collaborator invoked: no allocation, no `conn_init`. -/
theorem new_upcall_blocked (tbl : HookTable) (allocOk createClientOk : Bool)
    (sk : Sock) :
    tfw_connection_new_upcall tbl Verdict.block allocOk createClientOk sk =
      some (-EPERM, sk, []) := by
  simp [tfw_connection_new_upcall]

/-- C7: when the slab allocator fails, `tfw_connection_new` returns NULL
and the socket is untouched (user-data slot, destructor, flags all
unchanged) and no collaborator runs: no allocation event, no `conn_init`. -/
theorem tfw_connection_new_alloc_failure (tbl : HookTable) (sk : Sock)
    (type : Nat) (destructor : Option Nat)
    (hdir : type &&& (Conn_Clnt ||| Conn_Srv) ≠ 0) :
    tfw_connection_new tbl sk type destructor false = some (none, sk, []) := by
  simp [tfw_connection_new, hdir, tfw_connection_alloc]

/-- C7 witness: allocator failure on the concrete empty socket `sk0` with a
client-facing type. -/
theorem tfw_connection_new_alloc_failure_witness :
    tfw_connection_new tbl0 sk0 Conn_Clnt (some 2) false =
      some (none, sk0, []) :=
  tfw_connection_new_alloc_failure tbl0 sk0 Conn_Clnt (some 2) (by decide)

/-- Distributing the direction-bit mask over a bitwise OR of type tags. -/
theorem connDirBits_or (a b : Nat) :
    connDirBits (a ||| b) = connDirBits a ||| connDirBits b := by
  unfold connDirBits
  apply Nat.eq_of_testBit_eq
  intro i
  simp [Nat.testBit_land, Nat.testBit_lor, Bool.and_or_distrib_right]

/-- C3: storing a segment on a connection whose protocol hook is
registered: with no in-flight message and a failing `conn_msg_alloc` the
call returns `-ENOMEM` and the connection (its empty message included) is
unchanged; with no in-flight message and a successful allocation the fresh
message receives the segment at its tail; with an in-flight message the
segment is appended at its tail, preserving arrival order. -/
theorem put_skb_to_msg_correct (tbl : HookTable) (conn : TfwConnection)
    (skb : Nat) (hk : TfwConnHooks) (m : TfwMsg)
    (hhk : tbl.getD (TFW_CONN_TYPE2IDX conn.proto.type) none = some hk) :
    (conn.msg = none ∧ hk.conn_msg_alloc = none →
      tfw_connection_put_skb_to_msg tbl conn skb =
        some (-ENOMEM, conn,
              [Event.msg_alloc (TFW_CONN_TYPE2IDX conn.proto.type)])) ∧
    (conn.msg = none ∧ hk.conn_msg_alloc = some m →
      tfw_connection_put_skb_to_msg tbl conn skb =
        some (0, { conn with msg := some { skb_list := m.skb_list ++ [skb] } },
              [Event.msg_alloc (TFW_CONN_TYPE2IDX conn.proto.type)])) ∧
    (conn.msg = some m →
      tfw_connection_put_skb_to_msg tbl conn skb =
        some (0, { conn with msg := some { skb_list := m.skb_list ++ [skb] } },
              [])) := by
  rw [List.getD_eq_getElem?_getD] at hhk
  refine ⟨?_, ?_, ?_⟩
  · rintro ⟨hmsg, halloc⟩
    simp [tfw_connection_put_skb_to_msg, hmsg, hhk, halloc]
  · rintro ⟨hmsg, halloc⟩
    simp [tfw_connection_put_skb_to_msg, hmsg, hhk, halloc, ss_skb_queue_tail]
  · intro hmsg
    simp [tfw_connection_put_skb_to_msg, hmsg, ss_skb_queue_tail]

/-- C3 witness: the theorem applied to the concrete connection `c0` (no
in-flight message) with table `tbl0`, whose hook allocates the empty
message, and segment 42. -/
theorem put_skb_to_msg_correct_witness :
    (c0.msg = none ∧ hk0.conn_msg_alloc = none →
      tfw_connection_put_skb_to_msg tbl0 c0 42 =
        some (-ENOMEM, c0,
              [Event.msg_alloc (TFW_CONN_TYPE2IDX c0.proto.type)])) ∧
    (c0.msg = none ∧ hk0.conn_msg_alloc = some { skb_list := [] } →
      tfw_connection_put_skb_to_msg tbl0 c0 42 =
        some (0, { c0 with msg := some { skb_list := [] ++ [42] } },
              [Event.msg_alloc (TFW_CONN_TYPE2IDX c0.proto.type)])) ∧
    (c0.msg = some { skb_list := [] } →
      tfw_connection_put_skb_to_msg tbl0 c0 42 =
        some (0, { c0 with msg := some { skb_list := [] ++ [42] } }, [])) :=
  put_skb_to_msg_correct tbl0 c0 42 hk0 { skb_list := [] } (by decide)

/-- A protocol pre-binding tag that carries a direction bit next to its
protocol index. -/
def preTag : SsProto := { type := Conn_Srv ||| 1 }

/-- A socket pre-bound with `preTag` and no destructor. -/
def skPre : Sock :=
  { id := 6, sk_user_data := UserData.proto preTag, sk_destruct := none,
    remote_addr := 0, sock_dbg := false }

/-- A hook table with protocol 1 registered. -/
def tbl1 : HookTable := [none, some hkFail, none, none]

/-- The connection produced by `tfw_connection_new` on `skPre` with
requested type `Conn_Clnt`. -/
def connC4 : TfwConnection :=
  { proto := { type := Conn_Clnt ||| Conn_Srv ||| 1 }, sock := some 6,
    peer := none, msg := none, msg_queue := [], sk_destruct := none }

/-- The socket `skPre` after that call. -/
def skC4 : Sock :=
  { id := 6, sk_user_data := UserData.conn connC4, sk_destruct := none,
    remote_addr := 0, sock_dbg := true }

/-- C4 counterexample: the source ORs the entire pre-bound tag into the
requested type without masking, so a pre-bound tag carrying the
server-facing bit makes the direction bits of the resulting connection
type differ from those of the type argument. -/
theorem tfw_connection_new_mixes_direction_bits :
    tfw_connection_new tbl1 skPre Conn_Clnt none true =
      some (some connC4, skC4, [Event.conn_alloc, Event.conn_init 1]) ∧
    connDirBits connC4.proto.type ≠ connDirBits Conn_Clnt := by
  decide

/-- C4 (amended): a successful `tfw_connection_new` on a pre-bound socket
gives the connection the bitwise OR of the requested type with the whole
pre-bound tag; when the pre-bound tag carries no direction bits, the
direction bits of the result are exactly those of the type argument. -/
theorem tfw_connection_new_or_whole_tag (tbl : HookTable) (sk : Sock)
    (type : Nat) (p : SsProto) (destructor : Option Nat) (allocOk : Bool)
    (conn : TfwConnection) (sk' : Sock) (evs : List Event)
    (hud : sk.sk_user_data = UserData.proto p)
    (hnew : tfw_connection_new tbl sk type destructor allocOk =
      some (some conn, sk', evs)) :
    conn.proto.type = type ||| p.type ∧
    (connDirBits p.type = 0 →
      connDirBits conn.proto.type = connDirBits type) := by
  have htype : conn.proto.type = type ||| p.type := by
    simp only [tfw_connection_new, hud, UserData.protoType,
      tfw_connection_alloc] at hnew
    split at hnew
    · exact absurd hnew (by simp)
    · cases allocOk with
      | false => simp at hnew
      | true =>
        simp only [if_pos rfl] at hnew
        split at hnew
        · exact absurd hnew (by simp)
        · rename_i conn0 heq
          split at hnew
          · exact absurd hnew (by simp)
          · simp only [Option.some.injEq, Prod.mk.injEq] at hnew
            obtain ⟨hc, hs, he⟩ := hnew
            simp only [if_true, Option.some.injEq] at heq
            subst heq
            subst hc
            rfl
  refine ⟨htype, fun hp => ?_⟩
  rw [htype, connDirBits_or, hp, Nat.or_zero]

/-- A socket pre-bound with a pure protocol tag (no direction bits). -/
def skPre1 : Sock :=
  { id := 6, sk_user_data := UserData.proto { type := 1 },
    sk_destruct := none, remote_addr := 0, sock_dbg := false }

/-- The connection produced by `tfw_connection_new` on `skPre1` with
requested type `Conn_Clnt`. -/
def connA4 : TfwConnection :=
  { proto := { type := Conn_Clnt ||| 1 }, sock := some 6, peer := none,
    msg := none, msg_queue := [], sk_destruct := none }

/-- The socket `skPre1` after that call. -/
def skA4 : Sock :=
  { id := 6, sk_user_data := UserData.conn connA4, sk_destruct := none,
    remote_addr := 0, sock_dbg := true }

/-- C4 witness: the amended theorem applied to the concrete pre-bound
socket `skPre1`, whose tag has no direction bits. -/
theorem tfw_connection_new_or_whole_tag_witness :
    connA4.proto.type = Conn_Clnt ||| (1 : Nat) ∧
    (connDirBits (1 : Nat) = 0 →
      connDirBits connA4.proto.type = connDirBits Conn_Clnt) :=
  tfw_connection_new_or_whole_tag tbl1 skPre1 Conn_Clnt { type := 1 } none
    true connA4 skA4 [Event.conn_alloc, Event.conn_init 1]
    (by decide) (by decide)

/-- The connection produced by the passive-open upcall on `sk0`. -/
def connC6 : TfwConnection :=
  { proto := { type := Conn_Clnt }, sock := some 5, peer := none,
    msg := none, msg_queue := [], sk_destruct := some 9 }

/-- The socket `sk0` after the passive-open upcall. -/
def skC6 : Sock :=
  { id := 5, sk_user_data := UserData.conn connC6,
    sk_destruct := some tfw_client_put, remote_addr := 7, sock_dbg := true }

/-- C6: the successful passive-open upcall does not resolve the socket's
remote address: on a socket with remote address 7 the address handed to
`tfw_create_client` is the memset-zeroed 0 (the source carries a TODO for
deriving the address from the socket), never the socket's address. -/
theorem new_upcall_passes_zero_address :
    sk0.remote_addr = 7 ∧
    tfw_connection_new_upcall tbl0 Verdict.pass true true sk0 =
      some (0, skC6,
            [Event.conn_alloc, Event.conn_init 0, Event.create_client 0]) ∧
    Event.create_client sk0.remote_addr ∉
      [Event.conn_alloc, Event.conn_init 0, Event.create_client 0] := by
  decide

/-- Shape of every successful `tfw_connection_new`: the returned socket
and connection are fully determined by the inputs, the bidirectional
binding is wired, and the only collaborator calls are the allocation and
one `conn_init`. -/
theorem tfw_connection_new_success_shape (tbl : HookTable) (sk : Sock)
    (type : Nat) (destructor : Option Nat) (allocOk : Bool)
    (conn : TfwConnection) (sk' : Sock) (evs : List Event)
    (hnew : tfw_connection_new tbl sk type destructor allocOk =
      some (some conn, sk', evs)) :
    conn = { proto := { type := preBoundOr sk.sk_user_data type },
             sock := some sk.id, peer := none, msg := none, msg_queue := [],
             sk_destruct :=
               if destructor.isSome then sk.sk_destruct else none } ∧
    sk' = { sk with
            sk_user_data := UserData.conn conn,
            sk_destruct :=
              if destructor.isSome then destructor else sk.sk_destruct,
            sock_dbg := true } ∧
    evs = [Event.conn_alloc,
           Event.conn_init (TFW_CONN_TYPE2IDX
             (preBoundOr sk.sk_user_data type))] := by
  simp only [tfw_connection_new, tfw_connection_alloc] at hnew
  split at hnew
  · exact absurd hnew (by simp)
  · cases allocOk with
    | false => simp at hnew
    | true =>
      simp only [if_pos rfl] at hnew
      split at hnew
      · exact absurd hnew (by simp)
      · rename_i conn0 heq
        split at hnew
        · exact absurd hnew (by simp)
        · simp only [Option.some.injEq, Prod.mk.injEq] at hnew
          obtain ⟨hc, hs, he⟩ := hnew
          simp only [if_true, Option.some.injEq] at heq
          subst heq
          subst hc
          subst hs
          subst he
          exact ⟨rfl, rfl, rfl⟩

/-- Shape of every `tfw_connection_close` returning success: the verdict
was allow, the socket carried a connection, and the returned socket is the
input socket with its `sk_user_data` slot cleared. -/
theorem tfw_connection_close_success_shape (tbl : HookTable) (v : Verdict)
    (sk sk' : Sock) (evs : List Event)
    (hclose : tfw_connection_close tbl v sk = some (0, sk', evs)) :
    sk' = { sk with sk_user_data := UserData.empty } := by
  simp only [tfw_connection_close] at hclose
  split at hclose
  · simp only [Option.some.injEq, Prod.mk.injEq] at hclose
    exact absurd hclose.1 (by decide)
  · split at hclose
    · split at hclose
      · exact absurd hclose (by simp)
      · simp only [Option.some.injEq, Prod.mk.injEq] at hclose
        exact hclose.2.1.symm
    · exact absurd hclose (by simp)

/-- C8: hook registration on a full-size table: when the index derived
from the type is out of range or the slot there is occupied, the call
fails fatally (the `BUG_ON`, modelled as `none`); otherwise the hook set
lands at exactly index `TFW_CONN_TYPE2IDX type` and every other slot is
unchanged. -/
theorem hooks_register_correct (hooks : TfwConnHooks) (type : Nat)
    (tbl : HookTable) (j : Nat)
    (hlen : tbl.length = TFW_CONN_MAX_PROTOS) :
    (TFW_CONN_MAX_PROTOS ≤ TFW_CONN_TYPE2IDX type ∨
        (tbl.getD (TFW_CONN_TYPE2IDX type) none).isSome →
      tfw_connection_hooks_register hooks type tbl = none) ∧
    (TFW_CONN_TYPE2IDX type < TFW_CONN_MAX_PROTOS ∧
        tbl.getD (TFW_CONN_TYPE2IDX type) none = none →
      tfw_connection_hooks_register hooks type tbl =
        some (tbl.set (TFW_CONN_TYPE2IDX type) (some hooks)) ∧
      (tbl.set (TFW_CONN_TYPE2IDX type) (some hooks)).getD
          (TFW_CONN_TYPE2IDX type) none = some hooks ∧
      (j ≠ TFW_CONN_TYPE2IDX type →
        (tbl.set (TFW_CONN_TYPE2IDX type) (some hooks)).getD j none =
          tbl.getD j none)) := by
  constructor
  · intro h
    simp only [tfw_connection_hooks_register]
    rw [if_pos h]
  · rintro ⟨h1, h2⟩
    have h2' : tbl[TFW_CONN_TYPE2IDX type]?.getD none = none := by
      rw [← List.getD_eq_getElem?_getD]
      exact h2
    have hc : ¬(TFW_CONN_MAX_PROTOS ≤ TFW_CONN_TYPE2IDX type ∨
        (tbl.getD (TFW_CONN_TYPE2IDX type) none).isSome = true) := by
      rw [not_or, List.getD_eq_getElem?_getD]
      exact ⟨Nat.not_le.mpr h1, by simp [h2']⟩
    refine ⟨?_, ?_, ?_⟩
    · simp only [tfw_connection_hooks_register]
      rw [if_neg hc]
    · rw [List.getD_eq_getElem?_getD,
         List.getElem?_set_eq_of_lt _ (hlen ▸ h1)]
      rfl
    · intro hj
      rw [List.getD_eq_getElem?_getD, List.getElem?_set_ne (Ne.symm hj),
         ← List.getD_eq_getElem?_getD]

/-- C8 witness: registering the hook set `hkFail` for a server-facing type
of protocol index 2 into the concrete table `tbl0`, whose slot 2 is free;
slot 0 is among the unchanged slots. -/
theorem hooks_register_correct_witness :
    (TFW_CONN_MAX_PROTOS ≤ TFW_CONN_TYPE2IDX (Conn_Srv ||| 2) ∨
        (tbl0.getD (TFW_CONN_TYPE2IDX (Conn_Srv ||| 2)) none).isSome →
      tfw_connection_hooks_register hkFail (Conn_Srv ||| 2) tbl0 = none) ∧
    (TFW_CONN_TYPE2IDX (Conn_Srv ||| 2) < TFW_CONN_MAX_PROTOS ∧
        tbl0.getD (TFW_CONN_TYPE2IDX (Conn_Srv ||| 2)) none = none →
      tfw_connection_hooks_register hkFail (Conn_Srv ||| 2) tbl0 =
        some (tbl0.set (TFW_CONN_TYPE2IDX (Conn_Srv ||| 2)) (some hkFail)) ∧
      (tbl0.set (TFW_CONN_TYPE2IDX (Conn_Srv ||| 2)) (some hkFail)).getD
          (TFW_CONN_TYPE2IDX (Conn_Srv ||| 2)) none = some hkFail ∧
      (0 ≠ TFW_CONN_TYPE2IDX (Conn_Srv ||| 2) →
        (tbl0.set (TFW_CONN_TYPE2IDX (Conn_Srv ||| 2))
            (some hkFail)).getD 0 none = tbl0.getD 0 none)) :=
  hooks_register_correct hkFail (Conn_Srv ||| 2) tbl0 0 (by decide)

/-- C9: the bidirectional socket-connection binding: every successful
`tfw_connection_new` leaves the socket's `sk_user_data` slot pointing at
the returned connection, whose `sock` field points back at that socket;
every successful `tfw_connection_close` clears the `sk_user_data` half. -/
theorem connection_binding_invariant (tbl : HookTable) (sk : Sock)
    (type : Nat) (destructor : Option Nat) (allocOk : Bool)
    (conn : TfwConnection) (sk' : Sock) (evs : List Event)
    (v : Verdict) (sk2 sk2' : Sock) (evs2 : List Event)
    (hnew : tfw_connection_new tbl sk type destructor allocOk =
      some (some conn, sk', evs))
    (hclose : tfw_connection_close tbl v sk2 = some (0, sk2', evs2)) :
    sk'.sk_user_data = UserData.conn conn ∧ conn.sock = some sk'.id ∧
    sk2'.sk_user_data = UserData.empty := by
  obtain ⟨hc, hs, -⟩ :=
    tfw_connection_new_success_shape tbl sk type destructor allocOk
      conn sk' evs hnew
  have hclear :=
    tfw_connection_close_success_shape tbl v sk2 sk2' evs2 hclose
  subst hs
  subst hclear
  exact ⟨rfl, by rw [hc], rfl⟩

/-- The connection produced by `tfw_connection_new` on `sk0` with type
`Conn_Clnt` and destructor 2. -/
def connW9 : TfwConnection :=
  { proto := { type := Conn_Clnt }, sock := some 5, peer := none,
    msg := none, msg_queue := [], sk_destruct := some 9 }

/-- The socket `sk0` after that call. -/
def skW9 : Sock :=
  { id := 5, sk_user_data := UserData.conn connW9, sk_destruct := some 2,
    remote_addr := 7, sock_dbg := true }

/-- C9 witness: a concrete successful creation on `sk0` and a concrete
successful close of `sk1`. -/
theorem connection_binding_invariant_witness :
    skW9.sk_user_data = UserData.conn connW9 ∧
    connW9.sock = some skW9.id ∧
    ({ sk1 with sk_user_data := UserData.empty } : Sock).sk_user_data =
      UserData.empty :=
  connection_binding_invariant tbl0 sk0 Conn_Clnt (some 2) true connW9 skW9
    [Event.conn_alloc, Event.conn_init 0] Verdict.pass sk1
    { sk1 with sk_user_data := UserData.empty }
    [Event.conn_destruct 0, Event.peer_del_conn (some 3), Event.conn_free]
    (by decide) (by decide)

/-- C10: destructor handling in `tfw_connection_new`: with no destructor
supplied the socket's own destructor stays in place and the connection's
chained-destructor field stays empty; the capture-and-replace happens
exactly when a destructor is supplied. -/
theorem new_destructor_handling (tbl : HookTable) (sk : Sock) (type : Nat)
    (destructor : Option Nat) (allocOk : Bool) (conn : TfwConnection)
    (sk' : Sock) (evs : List Event) (f : Nat)
    (hnew : tfw_connection_new tbl sk type destructor allocOk =
      some (some conn, sk', evs)) :
    (destructor = none →
      sk'.sk_destruct = sk.sk_destruct ∧ conn.sk_destruct = none) ∧
    (destructor = some f →
      sk'.sk_destruct = some f ∧ conn.sk_destruct = sk.sk_destruct) := by
  obtain ⟨hc, hs, -⟩ :=
    tfw_connection_new_success_shape tbl sk type destructor allocOk
      conn sk' evs hnew
  subst hs
  constructor
  · intro hd
    subst hd
    exact ⟨rfl, by simp [hc]⟩
  · intro hd
    subst hd
    exact ⟨rfl, by simp [hc]⟩

/-- C10 witness: a concrete creation on the pre-bound socket `skPre1` with
no destructor: the socket's destructor slot and the connection's chained
destructor are both untouched. -/
theorem new_destructor_handling_witness :
    ((none : Option Nat) = none →
      skA4.sk_destruct = skPre1.sk_destruct ∧ connA4.sk_destruct = none) ∧
    ((none : Option Nat) = some 2 →
      skA4.sk_destruct = some 2 ∧ connA4.sk_destruct = skPre1.sk_destruct) :=
  new_destructor_handling tbl1 skPre1 Conn_Clnt none true connA4 skA4
    [Event.conn_alloc, Event.conn_init 1] 2 (by decide)

end Tempesta
